import Mathlib

/-!
Shallow embedding of `src/build_linux_mac.py`, the GCC cross-toolchain build
orchestrator, and proofs about the behaviour its specification claims.

Modelling conventions:
* A process environment (a Python `dict` of strings, `os.environ` and its
  copies) is a `PyEnv`: the `PATH` entry is kept as its list of colon-separated
  components (`path`), every other variable in an association list (`vars`)
  updated with Python's dict-assignment semantics (`dictSet`).
* `os.path.abspath` depends on the process working directory, so it is passed
  in as an explicit function `abspath : String → String`.
* A `subprocess.Popen` call is recorded as a `Stage` (the preceding `print`
  message, the command line, the optional working directory, the optional
  explicit environment).
* `glob.glob('sources/*name*')` is modelled over the listing of the `sources`
  directory: the entries whose file name contains `name` as a substring, each
  prefixed with `sources/`.  Python's `[0]` on an empty list raises
  `IndexError`, modelled with `Except PyExn`.
-/

/-- A Python string dict assignment `d[k] = v`: replaces the value of an
existing binding in place, otherwise appends the new binding. -/
def dictSet : List (String × String) → String → String → List (String × String)
  | [], k, v => [(k, v)]
  | (k', v') :: rest, k, v =>
      if k' = k then (k, v) :: rest else (k', v') :: dictSet rest k v

/-- A process environment: the `PATH` variable as its list of components, and
the remaining variables as an association list. -/
structure PyEnv where
  path : List String
  vars : List (String × String)
deriving DecidableEq, Repr

/-- `get_build_env` (src/build_linux_mac.py lines 69-78).  Starts from a copy
of the ambient environment, sets `PREFIX` and `TARGET`, and prepends `bin`
directories to `PATH`: the ELF host-compiler one when `elf_gcc` is a non-empty
(truthy) string, then the MinGW host-compiler one when `mingw_gcc` is truthy,
and finally the base prefix's one. -/
def get_build_env (abspath : String → String) (pfx mingw_gcc elf_gcc target : String)
    (ambient : PyEnv) : PyEnv :=
  let env := ambient
  let env : PyEnv := { env with vars := dictSet env.vars "PREFIX" pfx }
  let env : PyEnv := { env with vars := dictSet env.vars "TARGET" target }
  let env : PyEnv :=
    if elf_gcc ≠ "" then { env with path := (abspath elf_gcc ++ "/bin") :: env.path } else env
  let env : PyEnv :=
    if mingw_gcc ≠ "" then { env with path := (abspath mingw_gcc ++ "/bin") :: env.path } else env
  { env with path := (abspath pfx ++ "/bin") :: env.path }

/-- The mutable process state visible to `get_build_env`: the global
`os.environ`.  (A dict assignment in Python mutates the receiving dict object;
the assignments on lines 71-77 all target the fresh dict produced by
`os.environ.copy()` on line 70, never `os.environ` itself.) -/
structure World where
  os_environ : PyEnv
deriving DecidableEq, Repr

/-- `get_build_env` as a state transformer over the process: it returns the
composed environment together with the state of `os.environ` after the call.
Because line 70 copies `os.environ` before any assignment, the global is
returned unchanged. -/
def get_build_env_step (abspath : String → String) (pfx mingw_gcc elf_gcc target : String)
    (w : World) : PyEnv × World :=
  (get_build_env abspath pfx mingw_gcc elf_gcc target w.os_environ, w)

/-- Whether the character list `sub` is a prefix of `l`. -/
def charsHasPfx : List Char → List Char → Bool
  | _, [] => true
  | [], _ :: _ => false
  | a :: as, b :: bs => a == b && charsHasPfx as bs

/-- Whether the character list `sub` occurs contiguously inside `l`. -/
def charsHasSub : List Char → List Char → Bool
  | [], sub => sub.isEmpty
  | a :: as, sub => charsHasPfx (a :: as) sub || charsHasSub as sub

/-- Whether `sub` occurs as a substring of `s` (the `*sub*` glob pattern). -/
def strContains (s sub : String) : Bool :=
  charsHasSub s.data sub.data

/-- `glob.glob('sources/*sub*')` over the listing of the `sources` directory:
the entries containing `sub`, in directory order, as `sources/`-relative
paths. -/
def glob_sources (listing : List String) (sub : String) : List String :=
  (listing.filter (fun name => strContains name sub)).map
    (fun name => "sources/" ++ name)

/-- The Python exceptions this script can raise in the modelled fragment. -/
inductive PyExn where
  | indexError
deriving DecidableEq, Repr

/-- Python `xs[0]`: the first element, or an `IndexError` when `xs` is empty. -/
def pyIndex0 (xs : List String) : Except PyExn String :=
  match xs with
  | [] => .error .indexError
  | x :: _ => .ok x

/-- One recorded `subprocess.Popen` invocation: the `print` banner preceding
it, the command line, the optional `cwd` argument and the optional `env`
argument. -/
structure Stage where
  desc : String
  cmd : String
  cwd : Option String
  env : Option PyEnv
deriving DecidableEq, Repr

/-- `build_elf_toolchain` (src/build_linux_mac.py lines 249-379): the native
x86-64 ELF recipe.  Resolves the binutils, gdb and gcc source trees by glob
(`IndexError` when a component is missing), then records the fifteen external
commands it launches, in order, each with the single composed environment. -/
def build_elf_toolchain (abspath : String → String) (listing : List String)
    (pfx : String) (ambient : PyEnv) : Except PyExn (List Stage) := do
  let target := "x86_64-elf"
  let env := get_build_env abspath pfx "" "" target ambient
  let binutils ← pyIndex0 (glob_sources listing "binutils")
  let gdb ← pyIndex0 (glob_sources listing "gdb")
  let gcc ← pyIndex0 (glob_sources listing "gcc")
  let p := abspath pfx
  pure [
    { desc := "   Configuring binutils...",
      cmd := "../../" ++ binutils ++ "/configure --target=" ++ target ++ " --prefix=" ++ p ++
        " --disable-nls --disable-werror --without-zstd",
      cwd := some ("build/build-binutils-" ++ target ++ "/"), env := some env },
    { desc := "   Building binutils...", cmd := "gmake -j16",
      cwd := some ("build/build-binutils-" ++ target ++ "/"), env := some env },
    { desc := "   Installing binutils...", cmd := "gmake install-strip",
      cwd := some ("build/build-binutils-" ++ target ++ "/"), env := some env },
    { desc := "   Download prerequisites...", cmd := "contrib/download_prerequisites",
      cwd := some gcc, env := some env },
    { desc := "   Configuring gcc...",
      cmd := "../../" ++ gcc ++ "/configure --target=" ++ target ++ " --prefix=" ++ p ++
        " --disable-nls --disable-multilib --disable-werror --disable-libstdcxx --without-zstd" ++
        " --without-headers --without-newlib --enable-languages=c,c++",
      cwd := some ("build/build-gcc-" ++ target ++ "/"), env := some env },
    { desc := "   Building gcc...", cmd := "gmake all-gcc -j16",
      cwd := some ("build/build-gcc-" ++ target ++ "/"), env := some env },
    { desc := "   Installing gcc...", cmd := "gmake install-strip-gcc",
      cwd := some ("build/build-gcc-" ++ target ++ "/"), env := some env },
    { desc := "  Building gcc libs...",
      cmd := "gmake all-target-libgcc CFLAGS_FOR_TARGET='-g -O2 -mno-red-zone' -j16",
      cwd := some ("build/build-gcc-" ++ target ++ "/"), env := some env },
    { desc := "   Installing gcc libs...", cmd := "gmake install-target-libgcc",
      cwd := some ("build/build-gcc-" ++ target ++ "/"), env := some env },
    { desc := "   Installing gmp...", cmd := "gmake install-strip",
      cwd := some ("build/build-gcc-" ++ target ++ "/gmp"), env := some env },
    { desc := "   Installing mpfr...", cmd := "gmake install-strip",
      cwd := some ("build/build-gcc-" ++ target ++ "/mpfr"), env := some env },
    { desc := "   Installing mpc...", cmd := "gmake install-strip",
      cwd := some ("build/build-gcc-" ++ target ++ "/mpc"), env := some env },
    { desc := "   Configuring gdb...",
      cmd := "../../" ++ gdb ++ "/configure --target=" ++ target ++ " --prefix=" ++ p ++
        " --with-gmp=" ++ p ++ " --with-mpfr=" ++ p ++
        " --without-zstd --disable-nls --disable-werror",
      cwd := some ("build/build-gdb-" ++ target ++ "/"), env := some env },
    { desc := "   Building gdb...", cmd := "gmake all-gdb -j16",
      cwd := some ("build/build-gdb-" ++ target ++ "/"), env := some env },
    { desc := "   Installing gdb...", cmd := "gmake install-gdb",
      cwd := some ("build/build-gdb-" ++ target ++ "/"), env := some env }]

/-- `build_mingw_toolchain` (src/build_linux_mac.py lines 86-242): the native
x86-64 MinGW recipe.  Eighteen external commands; the runtime-library and
winpthreads stages run under `env_copy`, the composed environment with
`CC`/`CXX`/`CPP` overridden to the just-built cross tools. -/
def build_mingw_toolchain (abspath : String → String) (listing : List String)
    (pfx : String) (ambient : PyEnv) : Except PyExn (List Stage) := do
  let target := "x86_64-w64-mingw32"
  let env := get_build_env abspath pfx "" "" target ambient
  let binutils ← pyIndex0 (glob_sources listing "binutils")
  let gcc ← pyIndex0 (glob_sources listing "gcc")
  let mingw ← pyIndex0 (glob_sources listing "mingw")
  let p := abspath pfx
  let env_copy : PyEnv :=
    { env with vars := dictSet (dictSet (dictSet env.vars "CC" (target ++ "-gcc"))
        "CXX" (target ++ "-g++")) "CPP" (target ++ "-cpp") }
  pure [
    { desc := "   Configuring binutils...",
      cmd := "../../" ++ binutils ++ "/configure --target=" ++ target ++ " --prefix=" ++ p ++
        " --with-sysroot=" ++ p ++ " --disable-nls --disable-werror --without-zstd",
      cwd := some ("build/build-binutils-" ++ target ++ "/"), env := some env },
    { desc := "   Building binutils...", cmd := "gmake -j16",
      cwd := some ("build/build-binutils-" ++ target ++ "/"), env := some env },
    { desc := "   Installing binutils...", cmd := "gmake install-strip",
      cwd := some ("build/build-binutils-" ++ target ++ "/"), env := some env },
    { desc := "  Configuring mingw headers...",
      cmd := "../../" ++ mingw ++ "/mingw-w64-headers/configure --host=" ++ target ++
        " --prefix=" ++ p ++ "/" ++ target,
      cwd := some ("build/build-mingw-headers-" ++ target ++ "/"), env := some env },
    { desc := "   Installing mingw headers...", cmd := "gmake install",
      cwd := some ("build/build-mingw-headers-" ++ target ++ "/"), env := some env },
    { desc := "   Creating symlink...",
      cmd := "ln -s " ++ p ++ "/" ++ target ++ " " ++ p ++ "/mingw",
      cwd := none, env := none },
    { desc := "   Download prerequisites...", cmd := "contrib/download_prerequisites",
      cwd := some gcc, env := some env },
    { desc := "   Configuring gcc...",
      cmd := "../../" ++ gcc ++ "/configure --target=" ++ target ++ " --with-sysroot=" ++ p ++
        " --with-ld=" ++ p ++ "/bin/" ++ target ++ "-ld --with-as=" ++ p ++ "/bin/" ++ target ++
        "-as --prefix=" ++ p ++ " --without-zstd --disable-nls --disable-multilib" ++
        " --disable-werror --enable-languages=c,c++ --enable-threads=posix",
      cwd := some ("build/build-gcc-" ++ target ++ "/"), env := some env },
    { desc := "   Building gcc...", cmd := "gmake all-gcc -j16",
      cwd := some ("build/build-gcc-" ++ target ++ "/"), env := some env },
    { desc := "   Installing gcc...", cmd := "gmake install-strip-gcc",
      cwd := some ("build/build-gcc-" ++ target ++ "/"), env := some env },
    { desc := "  Configuring mingw...",
      cmd := "../../" ++ mingw ++ "/mingw-w64-crt/configure --host=" ++ target ++
        " --prefix=" ++ p ++ "/" ++ target ++ " --with-sysroot=" ++ p ++ "/" ++ target ++
        " --disable-multilib",
      cwd := some ("build/build-mingw-libs-" ++ target ++ "/"), env := some env_copy },
    { desc := "  Building mingw...", cmd := "gmake -j16",
      cwd := some ("build/build-mingw-libs-" ++ target ++ "/"), env := some env_copy },
    { desc := "  Installing mingw...", cmd := "gmake install-strip",
      cwd := some ("build/build-mingw-libs-" ++ target ++ "/"), env := some env_copy },
    { desc := "  Configuring mingw winpthreads...",
      cmd := "../../" ++ mingw ++ "/mingw-w64-libraries/winpthreads/configure --host=" ++
        target ++ " --with-sysroot=" ++ p ++ "/" ++ target ++ " --prefix=" ++ p ++ "/" ++ target,
      cwd := some ("build/build-mingw-winpthreads-" ++ target ++ "/"), env := some env_copy },
    { desc := "  Building mingw winpthreads...", cmd := "gmake -j16",
      cwd := some ("build/build-mingw-winpthreads-" ++ target ++ "/"), env := some env_copy },
    { desc := "  Installing mingw winpthreads...", cmd := "gmake install-strip",
      cwd := some ("build/build-mingw-winpthreads-" ++ target ++ "/"), env := some env_copy },
    { desc := "  Building gcc libs...", cmd := "gmake -j16",
      cwd := some ("build/build-gcc-" ++ target ++ "/"), env := some env },
    { desc := "   Installing gcc libs...", cmd := "gmake install-strip",
      cwd := some ("build/build-gcc-" ++ target ++ "/"), env := some env }]

/-- `build_win_mingw` (src/build_linux_mac.py lines 381-505): the
Windows-hosted x86-64 MinGW recipe.  The composed environment is given the
native MinGW install prefix as a host-compiler prefix; fifteen external
commands are recorded, two of them plain `cp` invocations with neither `cwd`
nor `env`. -/
def build_win_mingw (abspath : String → String) (listing : List String)
    (pfx mingw_pfx : String) (ambient : PyEnv) : Except PyExn (List Stage) := do
  let target := "x86_64-w64-mingw32"
  let env := get_build_env abspath pfx mingw_pfx "" target ambient
  let binutils ← pyIndex0 (glob_sources listing "binutils")
  let gcc ← pyIndex0 (glob_sources listing "gcc")
  let mingw ← pyIndex0 (glob_sources listing "mingw")
  let p := abspath pfx
  pure [
    { desc := "   Configuring binutils...",
      cmd := "../../" ++ binutils ++ "/configure --host=" ++ target ++ " --target=" ++ target ++
        " --prefix=" ++ p ++ " --disable-multilib --disable-nls --disable-werror --without-zstd",
      cwd := some ("build/build-win-binutils-" ++ target ++ "/"), env := some env },
    { desc := "   Building binutils...", cmd := "gmake -j16",
      cwd := some ("build/build-win-binutils-" ++ target ++ "/"), env := some env },
    { desc := "   Installing binutils...", cmd := "gmake install-strip",
      cwd := some ("build/build-win-binutils-" ++ target ++ "/"), env := some env },
    { desc := "   Download prerequisites...", cmd := "contrib/download_prerequisites",
      cwd := some gcc, env := some env },
    { desc := "   Configuring gcc...",
      cmd := "../../" ++ gcc ++ "/configure --host=" ++ target ++ " --target=" ++ target ++
        " --prefix=" ++ p ++ " --disable-nls --disable-multilib --disable-werror" ++
        " --without-headers --without-newlib --enable-languages=c",
      cwd := some ("build/build-win-gcc-" ++ target ++ "/"), env := some env },
    { desc := "   Building gcc...", cmd := "gmake -j16",
      cwd := some ("build/build-win-gcc-" ++ target ++ "/"), env := some env },
    { desc := "   Installing gcc...", cmd := "gmake install-strip",
      cwd := some ("build/build-win-gcc-" ++ target ++ "/"), env := some env },
    { desc := "  Copying libgcc to bin...",
      cmd := "cp " ++ p ++ "/lib/libgcc_s_seh-1.dll " ++ p ++ "/bin/",
      cwd := none, env := none },
    { desc := "  Configuring mingw...",
      cmd := "../../" ++ mingw ++ "/configure --host=" ++ target ++ " --prefix=" ++ p ++ "/" ++
        target ++ " --with-libraries=winpthread --disable-multilib",
      cwd := some ("build/build-mingw-libs-" ++ target ++ "/"), env := some env },
    { desc := "  Building mingw...", cmd := "gmake -j16",
      cwd := some ("build/build-mingw-libs-" ++ target ++ "/"), env := some env },
    { desc := "  Installing mingw...", cmd := "gmake install-strip",
      cwd := some ("build/build-mingw-libs-" ++ target ++ "/"), env := some env },
    { desc := "  Copying libwinpthread to bin...",
      cmd := "cp " ++ p ++ "/" ++ target ++ "/bin/libwinpthread-1.dll " ++ p ++ "/bin/",
      cwd := none, env := none },
    { desc := "   Installing gmp...", cmd := "gmake install-strip",
      cwd := some ("build/build-win-gcc-" ++ target ++ "/gmp"), env := some env },
    { desc := "   Installing mpfr...", cmd := "gmake install-strip",
      cwd := some ("build/build-win-gcc-" ++ target ++ "/mpfr"), env := some env },
    { desc := "   Installing mpc...", cmd := "gmake install-strip",
      cwd := some ("build/build-win-gcc-" ++ target ++ "/mpc"), env := some env }]

/-- `build_win_elf` (src/build_linux_mac.py lines 507-614): the Windows-hosted
x86-64 ELF recipe.  The composed environment is given both the native MinGW
prefix and the native ELF prefix as host-compiler prefixes; the gdb configure
stage points its gmp/mpfr search hints at the Windows-hosted MinGW prefix.
Twelve external commands are recorded. -/
def build_win_elf (abspath : String → String) (listing : List String)
    (pfx mingw_pfx elf_pfx win_mingw_pfx : String) (ambient : PyEnv) :
    Except PyExn (List Stage) := do
  let host := "x86_64-w64-mingw32"
  let target := "x86_64-elf"
  let env := get_build_env abspath pfx mingw_pfx elf_pfx target ambient
  let binutils ← pyIndex0 (glob_sources listing "binutils")
  let gdb ← pyIndex0 (glob_sources listing "gdb")
  let gcc ← pyIndex0 (glob_sources listing "gcc")
  let p := abspath pfx
  pure [
    { desc := "   Configuring binutils...",
      cmd := "../../" ++ binutils ++ "/configure --host=" ++ host ++ " --target=" ++ target ++
        " --prefix=" ++ p ++ " --disable-nls --disable-werror --without-zstd",
      cwd := some ("build/build-win-elf-binutils-" ++ target ++ "/"), env := some env },
    { desc := "   Building binutils...", cmd := "gmake -j16",
      cwd := some ("build/build-win-elf-binutils-" ++ target ++ "/"), env := some env },
    { desc := "   Installing binutils...", cmd := "gmake install-strip",
      cwd := some ("build/build-win-elf-binutils-" ++ target ++ "/"), env := some env },
    { desc := "   Download prerequisites...", cmd := "contrib/download_prerequisites",
      cwd := some gcc, env := some env },
    { desc := "   Configuring gcc...",
      cmd := "../../" ++ gcc ++ "/configure --host=" ++ host ++ " --target=" ++ target ++
        " --prefix=" ++ p ++ " --disable-nls --disable-multilib --disable-werror" ++
        " --disable-libstdcxx --without-zstd --without-headers --without-newlib" ++
        " --enable-languages=c,c++",
      cwd := some ("build/build-win-elf-gcc-" ++ target ++ "/"), env := some env },
    { desc := "   Building gcc...", cmd := "gmake all-gcc -j16",
      cwd := some ("build/build-win-elf-gcc-" ++ target ++ "/"), env := some env },
    { desc := "   Installing gcc...", cmd := "gmake install-strip-gcc",
      cwd := some ("build/build-win-elf-gcc-" ++ target ++ "/"), env := some env },
    { desc := "  Building gcc libs...",
      cmd := "gmake all-target-libgcc CFLAGS_FOR_TARGET='-g -O2 -mno-red-zone' -j16",
      cwd := some ("build/build-win-elf-gcc-" ++ target ++ "/"), env := some env },
    { desc := "   Installing gcc libs...", cmd := "gmake install-target-libgcc",
      cwd := some ("build/build-win-elf-gcc-" ++ target ++ "/"), env := some env },
    { desc := "   Configuring gdb...",
      cmd := "../../" ++ gdb ++ "/configure --host=" ++ host ++ " --target=" ++ target ++
        " --prefix=" ++ p ++ " --with-gmp=" ++ abspath win_mingw_pfx ++ " --with-mpfr=" ++
        abspath win_mingw_pfx ++ " --without-zstd --disable-nls --disable-werror",
      cwd := some ("build/build-win-elf-gdb-" ++ target ++ "/"), env := some env },
    { desc := "   Building gdb...", cmd := "gmake all-gdb -j16",
      cwd := some ("build/build-win-elf-gdb-" ++ target ++ "/"), env := some env },
    { desc := "   Installing gdb...", cmd := "gmake install-gdb",
      cwd := some ("build/build-win-elf-gdb-" ++ target ++ "/"), env := some env }]

/-- `get_subprocess_output` (src/build_linux_mac.py lines 80-84): streams the
child's standard output until the process has exited and returns.  It reads
`pipe.poll()` only to detect exit and never consults the exit status: its
result is the streamed output alone, whatever the status is. -/
def get_subprocess_output (outputLines : List String) (exitStatus : Int) : List String :=
  let _ := exitStatus
  outputLines

/-- Executing a recipe's stage list: the script launches every stage in order
(each `Popen` directly followed by `get_subprocess_output`); no branch
inspects an exit status, so the run pairs each stage with the status its
process happened to exit with and continues regardless. -/
def runRecipe (stages : List Stage) (exitStatus : Nat → Int) : List (Stage × Int) :=
  stages.enum.map (fun si => (si.2, exitStatus si.1))

/-- The stages actually invoked when a recipe's stage list runs under the
given exit statuses. -/
def invoked (stages : List Stage) (exitStatus : Nat → Int) : List Stage :=
  (runRecipe stages exitStatus).map Prod.fst

/-- The stages a build function launches: none at all when it raised before
reaching its first `Popen`. -/
def launchedStages (r : Except PyExn (List Stage)) : List Stage :=
  match r with
  | .ok stages => stages
  | .error _ => []

/-- The observable result of `pack_compiler`: the single output archive file
and the names added to it. -/
structure PackResult where
  outFile : String
  members : List String
deriving DecidableEq, Repr

/-- `pack_compiler` (src/build_linux_mac.py lines 616-622): opens one LZMA
file named `<arch>-<platform>-<binfmt>-gcc.tar.xz` under the archive
directory (`os.path.join` modelled as inserting a `/`) and adds every entry
of the install-prefix listing under its base name. -/
def pack_compiler (archive_pfx pfxListing_dir : String) (pfxListing : List String)
    (arch platformName binfmt : String) : PackResult :=
  let _ := pfxListing_dir
  { outFile := archive_pfx ++ "/" ++ arch ++ "-" ++ platformName ++ "-" ++ binfmt ++
      "-gcc.tar.xz",
    members := pfxListing }

/-- `shutil.rmtree(d, ignore_errors=True)`: removes the directory when it is
present and raises nothing either way.  The state is the list of existing
top-level directories; the Bool records whether an error was raised. -/
def rmtree_ignore (fs : List String) (d : String) : List String × Bool :=
  (fs.filter (fun x => x ≠ d), false)

/-- `cleanup` (src/build_linux_mac.py lines 244-247): removes `build`,
`sources` and `tarballs`, each with `ignore_errors=True`.  Returns the
resulting directory list and whether any error was raised. -/
def cleanup (fs : List String) : List String × Bool :=
  let r1 := rmtree_ignore fs "build"
  let r2 := rmtree_ignore r1.1 "sources"
  let r3 := rmtree_ignore r2.1 "tarballs"
  (r3.1, r1.2 || r2.2 || r3.2)

/-- The command-line switches of the script (src/build_linux_mac.py lines
632-642), all defaulting to false. -/
structure Args where
  build_mingw : Bool
  build_elf : Bool
  build_win_mingw : Bool
  build_win_elf : Bool
  pack_mingw : Bool
  pack_elf : Bool
  pack_win_mingw : Bool
  pack_win_elf : Bool
  cleanup : Bool
deriving DecidableEq, Repr

/-- The configuration JSON's fields used by `main` (versions and the five
directory paths; `*_pfx` stands for the `*_prefix` keys of the file). -/
structure Config where
  binutils : String
  gdb : String
  gcc : String
  mingw : String
  mingw_pfx : String
  elf_pfx : String
  mingw_win_pfx : String
  elf_win_pfx : String
  archive_pfx : String
deriving DecidableEq, Repr

/-- The externally observable actions `main` performs, in order: the cleanup
path, downloading, extracting, running one recipe (with the stage list it
launches), and a `pack_compiler` call with its arguments. -/
inductive MainAct where
  | doCleanup
  | download (binutils gdb gcc mingw : String)
  | extract
  | recipe (name : String) (stages : List Stage)
  | packCall (archiveDir installDir arch plat fmt : String)
deriving DecidableEq, Repr

/-- Running one build function inside `main`: a successful stage-list
computation is recorded as a recipe action; an exception aborts the run
(uncaught, as in the script). -/
def runBuild (name : String) (r : Except PyExn (List Stage)) :
    List MainAct × Option PyExn :=
  match r with
  | .ok stages => ([MainAct.recipe name stages], none)
  | .error e => ([], some e)

/-- Sequencing of `main`'s steps: once an uncaught exception occurred, no
later step runs. -/
def seqAct (acc : List MainAct × Option PyExn) (next : Unit → List MainAct × Option PyExn) :
    List MainAct × Option PyExn :=
  match acc with
  | (as, none) => let r := next (); (as ++ r.1, r.2)
  | (as, some e) => (as, some e)

/-- `main` (src/build_linux_mac.py lines 624-712) after argument and config
parsing: the trace of actions it performs and the uncaught exception, if any.
`dirs` is the list of directories existing in the working directory (`main`
consults it only through `os.path.isdir('tarballs')` and
`os.path.isdir('sources')`); `listing` is the content of `sources/` seen by
the recipes' globs; `arch`/`osName` come from `platform`. -/
def mainRun (abspath : String → String) (args : Args) (cfg : Config)
    (dirs : List String) (listing : List String) (arch osName : String)
    (ambient : PyEnv) : List MainAct × Option PyExn :=
  if args.cleanup then ([MainAct.doCleanup], none)
  else
    let t : List MainAct × Option PyExn :=
      ((if dirs.contains "tarballs" then []
        else [MainAct.download cfg.binutils cfg.gdb cfg.gcc cfg.mingw]), none)
    let t := seqAct t (fun _ =>
      ((if dirs.contains "sources" then [] else [MainAct.extract]), none))
    let t := seqAct t (fun _ =>
      if args.build_mingw then
        runBuild "build_mingw" (build_mingw_toolchain abspath listing cfg.mingw_pfx ambient)
      else ([], none))
    let t := seqAct t (fun _ =>
      if args.build_elf then
        runBuild "build_elf" (build_elf_toolchain abspath listing cfg.elf_pfx ambient)
      else ([], none))
    let t := seqAct t (fun _ =>
      if args.build_win_mingw then
        runBuild "build_win_mingw"
          (build_win_mingw abspath listing cfg.mingw_win_pfx cfg.mingw_pfx ambient)
      else ([], none))
    let t := seqAct t (fun _ =>
      if args.build_win_elf then
        runBuild "build_win_elf"
          (build_win_elf abspath listing cfg.elf_win_pfx cfg.mingw_pfx cfg.elf_pfx
            cfg.mingw_win_pfx ambient)
      else ([], none))
    let t := seqAct t (fun _ =>
      ((if args.pack_mingw then
          [MainAct.packCall cfg.archive_pfx cfg.mingw_pfx arch osName "mingw"] else []), none))
    let t := seqAct t (fun _ =>
      ((if args.pack_elf then
          [MainAct.packCall cfg.archive_pfx cfg.elf_pfx arch osName "elf"] else []), none))
    let t := seqAct t (fun _ =>
      ((if args.pack_win_mingw then
          [MainAct.packCall cfg.archive_pfx cfg.mingw_win_pfx "amd64" "windows" "mingw"]
        else []), none))
    seqAct t (fun _ =>
      ((if args.pack_win_elf then
          [MainAct.packCall cfg.archive_pfx cfg.elf_win_pfx "amd64" "windows" "elf"]
        else []), none))

/-- The stage lists of the recipe actions named `name` in a trace. -/
def recipeStages (trace : List MainAct) (name : String) : List (List Stage) :=
  trace.filterMap (fun a =>
    match a with
    | MainAct.recipe n stages => if n = name then some stages else none
    | _ => none)

/-- A sample `sources/` directory listing, used to instantiate theorems with
hypotheses at concrete inputs. -/
def demoListing : List String :=
  ["binutils-2.41", "gdb-14.1", "gcc-13.2.0", "mingw-w64-v11.0.1"]

/-- A sample ambient process environment. -/
def demoAmbient : PyEnv :=
  { path := ["/usr/bin"], vars := [("HOME", "/root")] }

/-- Appending `/bin` to a string never yields the empty string. -/
theorem append_bin_ne_empty (s : String) : s ++ "/bin" ≠ "" := by
  intro h
  have hlen := congrArg String.length h
  simp [String.length_append] at hlen
  exact absurd hlen.2 (by decide)

/-- C3 counterexample: with base prefix `/p`, MinGW host-compiler prefix `/m`
and ELF host-compiler prefix `/e`, the composed search path is
`/p/bin, /m/bin, /e/bin, ambient`: the MinGW entry precedes the ELF entry, so
the claimed order (ELF host bin before MinGW host bin) is false. -/
theorem get_build_env_elf_does_not_precede_mingw :
    (get_build_env id "/p" "/m" "/e" "t" { path := ["/amb"], vars := [] }).path =
      ["/p/bin", "/m/bin", "/e/bin", "/amb"] ∧
    (get_build_env id "/p" "/m" "/e" "t" { path := ["/amb"], vars := [] }).path ≠
      ["/p/bin", "/e/bin", "/m/bin", "/amb"] ∧
    ¬ List.indexOf "/e/bin"
        (get_build_env id "/p" "/m" "/e" "t" { path := ["/amb"], vars := [] }).path <
      List.indexOf "/m/bin"
        (get_build_env id "/p" "/m" "/e" "t" { path := ["/amb"], vars := [] }).path := by
  decide

/-- C3 (amended): for every ambient environment, base prefix `P` and non-empty
host-compiler prefixes `A` (the MinGW argument) and `B` (the ELF argument),
the composed search path is exactly `P/bin`, then `A/bin`, then `B/bin`, then
the ambient path: the base prefix has highest priority and the MinGW
host-compiler entry precedes the ELF host-compiler entry. -/
theorem get_build_env_path_order (abspath : String → String) (P A B T : String)
    (ambient : PyEnv) (hA : A ≠ "") (hB : B ≠ "") :
    (get_build_env abspath P A B T ambient).path =
      (abspath P ++ "/bin") :: (abspath A ++ "/bin") :: (abspath B ++ "/bin") ::
        ambient.path := by
  simp [get_build_env, hA, hB]

/-- Witness for the amended C3 theorem at a concrete input. -/
theorem get_build_env_path_order_witness :
    (("/m" : String) ≠ "") ∧
    (get_build_env id "/p" "/m" "/e" "t" { path := ["/amb"], vars := [] }).path =
      (id "/p" ++ "/bin") :: (id "/m" ++ "/bin") :: (id "/e" ++ "/bin") :: ["/amb"] :=
  ⟨by decide,
   get_build_env_path_order id "/p" "/m" "/e" "t" { path := ["/amb"], vars := [] }
     (by decide) (by decide)⟩

/-- C9: when both host-compiler arguments of `get_build_env` are the empty
string, no `bin` entry is prepended for them: the search path is exactly the
base prefix's `bin` followed by the ambient path, and no empty-string
component is introduced. -/
theorem get_build_env_empty_host_args (abspath : String → String) (P T : String)
    (ambient : PyEnv) (hamb : "" ∉ ambient.path) :
    (get_build_env abspath P "" "" T ambient).path =
      (abspath P ++ "/bin") :: ambient.path ∧
    "" ∉ (get_build_env abspath P "" "" T ambient).path := by
  have hpath : (get_build_env abspath P "" "" T ambient).path =
      (abspath P ++ "/bin") :: ambient.path := by
    simp [get_build_env]
  refine ⟨hpath, ?_⟩
  rw [hpath]
  intro hmem
  rcases List.mem_cons.mp hmem with h | h
  · exact append_bin_ne_empty (abspath P) h.symm
  · exact hamb h

/-- Witness for the C9 theorem at a concrete input. -/
theorem get_build_env_empty_host_args_witness :
    ("" ∉ demoAmbient.path) ∧
    (get_build_env id "/p" "" "" "t" demoAmbient).path =
      (id "/p" ++ "/bin") :: demoAmbient.path ∧
    "" ∉ (get_build_env id "/p" "" "" "t" demoAmbient).path :=
  ⟨by decide,
   (get_build_env_empty_host_args id "/p" "t" demoAmbient (by decide)).1,
   (get_build_env_empty_host_args id "/p" "t" demoAmbient (by decide)).2⟩

/-- C8: `get_build_env` never mutates the ambient process environment: as a
state transformer over `os.environ` it returns the environment composed from
a copy and leaves the global state exactly as it was, for every input. -/
theorem get_build_env_preserves_os_environ (abspath : String → String)
    (pfx mingw_gcc elf_gcc target : String) (w : World) :
    (get_build_env_step abspath pfx mingw_gcc elf_gcc target w).2 = w ∧
    (get_build_env_step abspath pfx mingw_gcc elf_gcc target w).1 =
      get_build_env abspath pfx mingw_gcc elf_gcc target w.os_environ :=
  ⟨rfl, rfl⟩

/-- C6: `pack_compiler` names its single output file exactly
`<arch>-<platform>-<binfmt>-gcc.tar.xz` inside the archive directory, and the
name does not depend on the install prefix's contents. -/
theorem pack_compiler_output_name (archive_pfx d : String) (l : List String)
    (arch plat fmt : String) :
    (pack_compiler archive_pfx d l arch plat fmt).outFile =
      archive_pfx ++ "/" ++ arch ++ "-" ++ plat ++ "-" ++ fmt ++ "-gcc.tar.xz" ∧
    ∀ l', (pack_compiler archive_pfx d l arch plat fmt).outFile =
      (pack_compiler archive_pfx d l' arch plat fmt).outFile :=
  ⟨rfl, fun _ => rfl⟩

/-- C7: `cleanup` is idempotent: a second invocation leaves the directory
state unchanged and raises no error, and after one invocation the `build`,
`sources` and `tarballs` directories are all absent. -/
theorem cleanup_idempotent (fs : List String) :
    (cleanup (cleanup fs).1).1 = (cleanup fs).1 ∧
    (cleanup (cleanup fs).1).2 = false ∧
    "build" ∉ (cleanup fs).1 ∧ "sources" ∉ (cleanup fs).1 ∧
    "tarballs" ∉ (cleanup fs).1 := by
  refine ⟨?_, rfl, ?_, ?_, ?_⟩
  · simp only [cleanup, rmtree_ignore, List.filter_filter]
    apply List.filter_congr
    intro a _
    by_cases hb : a = "build" <;> by_cases hs : a = "sources" <;>
      by_cases ht : a = "tarballs" <;> simp [hb, hs, ht]
  · simp [cleanup, rmtree_ignore, List.mem_filter]
  · simp [cleanup, rmtree_ignore, List.mem_filter]
  · simp [cleanup, rmtree_ignore, List.mem_filter]

/-- The stage list the native ELF recipe launches on the sample inputs. -/
def elfDemoStages : List Stage :=
  launchedStages (build_elf_toolchain id demoListing "/opt/elf" demoAmbient)

/-- An exit-status assignment under which the binutils build stage (index 1)
exits with status 1 and every other stage with 0. -/
def failStatus : Nat → Int :=
  fun i => if i = 1 then 1 else 0

/-- C1 counterexample: running the native ELF recipe under statuses where the
binutils build stage (index 1) exits non-zero, the gcc configure, libgcc
build, gmp/mpfr/mpc install and gdb configure stages are all still invoked:
a non-zero exit status is not fatal to the recipe. -/
theorem elf_recipe_continues_after_binutils_failure :
    (elfDemoStages[1]?).map Stage.desc = some "   Building binutils..." ∧
    failStatus 1 ≠ 0 ∧
    ((invoked elfDemoStages failStatus).map Stage.desc).contains
      "   Configuring gcc..." = true ∧
    ((invoked elfDemoStages failStatus).map Stage.desc).contains
      "  Building gcc libs..." = true ∧
    ((invoked elfDemoStages failStatus).map Stage.desc).contains
      "   Installing gmp..." = true ∧
    ((invoked elfDemoStages failStatus).map Stage.desc).contains
      "   Installing mpfr..." = true ∧
    ((invoked elfDemoStages failStatus).map Stage.desc).contains
      "   Installing mpc..." = true ∧
    ((invoked elfDemoStages failStatus).map Stage.desc).contains
      "   Configuring gdb..." = true := by
  refine ⟨rfl, by decide, rfl, rfl, rfl, rfl, rfl, rfl⟩

/-- C1 (amended): a stage exiting with a non-zero status is not fatal: the
script never consults exit statuses, so every stage of the recipe is invoked
whatever statuses the external processes exit with.  In particular all stages
of the native ELF recipe, the gcc, libgcc, gmp/mpfr/mpc and gdb ones
included, run even when the binutils build stage exits non-zero. -/
theorem build_elf_invokes_all_stages (abspath : String → String)
    (listing : List String) (pfx : String) (ambient : PyEnv)
    (stages : List Stage) (exitStatus : Nat → Int)
    (hok : build_elf_toolchain abspath listing pfx ambient = .ok stages) :
    invoked stages exitStatus = stages := by
  simp only [invoked, runRecipe, List.map_map]
  have : (Prod.fst ∘ fun si : Nat × Stage => (si.2, exitStatus si.1)) = Prod.snd := by
    funext si
    rfl
  rw [this]
  exact List.enum_map_snd stages

/-- Witness for the amended C1 theorem at a concrete input. -/
theorem build_elf_invokes_all_stages_witness :
    invoked elfDemoStages failStatus = elfDemoStages :=
  build_elf_invokes_all_stages id demoListing "/opt/elf" demoAmbient
    elfDemoStages failStatus (by rfl)

/-- The stage list the Windows-hosted ELF recipe launches on the sample
inputs. -/
def winElfDemoStages : List Stage :=
  launchedStages (build_win_elf id demoListing "/win-elf" "/native-mingw"
    "/native-elf" "/win-mingw" demoAmbient)

/-- C4 counterexample: the Windows-hosted ELF recipe does pass the native ELF
prefix to the Environment Composer: with native ELF prefix `/native-elf`,
every stage's environment carries `/native-elf/bin` in its search path (here
the first stage's), and with the native ELF prefix replaced the stage list
changes — the prefix is used, contradicting `is not needed`. -/
theorem build_win_elf_uses_native_elf_prefix :
    ((winElfDemoStages.head?).map (fun s => s.env.map PyEnv.path)) =
      some (some ["/win-elf/bin", "/native-mingw/bin", "/native-elf/bin", "/usr/bin"]) ∧
    winElfDemoStages ≠
      launchedStages (build_win_elf id demoListing "/win-elf" "/native-mingw"
        "/other-elf" "/win-mingw" demoAmbient) := by
  refine ⟨rfl, by decide⟩

/-- C4 (amended): the Windows-hosted ELF recipe gives the Environment
Composer the native MinGW prefix and also the native ELF prefix (both `bin`
directories are prepended, MinGW's first); the gdb configure stage passes the
Windows-hosted MinGW prefix as both its gmp and mpfr search hints. -/
theorem build_win_elf_env_and_gdb_hints (abspath : String → String)
    (listing : List String) (pfx mingw_pfx elf_pfx win_mingw_pfx : String)
    (ambient : PyEnv) (stages : List Stage)
    (hok : build_win_elf abspath listing pfx mingw_pfx elf_pfx win_mingw_pfx ambient =
      .ok stages)
    (hmp : mingw_pfx ≠ "") (hep : elf_pfx ≠ "") :
    (∀ s ∈ stages,
      s.env = some (get_build_env abspath pfx mingw_pfx elf_pfx "x86_64-elf" ambient)) ∧
    (get_build_env abspath pfx mingw_pfx elf_pfx "x86_64-elf" ambient).path =
      (abspath pfx ++ "/bin") :: (abspath mingw_pfx ++ "/bin") ::
        (abspath elf_pfx ++ "/bin") :: ambient.path ∧
    (stages[9]?).map Stage.cmd =
      some ("../../" ++ (glob_sources listing "gdb").headD "" ++
        "/configure --host=" ++ "x86_64-w64-mingw32" ++ " --target=" ++ "x86_64-elf" ++
        " --prefix=" ++ abspath pfx ++ " --with-gmp=" ++ abspath win_mingw_pfx ++
        " --with-mpfr=" ++ abspath win_mingw_pfx ++
        " --without-zstd --disable-nls --disable-werror") := by
  rcases hb : glob_sources listing "binutils" with _ | ⟨b, bs⟩
  · rw [build_win_elf] at hok
    simp [pyIndex0, hb, Bind.bind, Except.bind] at hok
  rcases hg : glob_sources listing "gdb" with _ | ⟨g, gs⟩
  · rw [build_win_elf] at hok
    simp [pyIndex0, hb, hg, Bind.bind, Except.bind] at hok
  rcases hc : glob_sources listing "gcc" with _ | ⟨c, cs⟩
  · rw [build_win_elf] at hok
    simp [pyIndex0, hb, hg, hc, Bind.bind, Except.bind] at hok
  rw [build_win_elf] at hok
  simp only [pyIndex0, hb, hg, hc, Bind.bind, Except.bind, pure, Except.pure,
    Except.ok.injEq] at hok
  subst hok
  refine ⟨?_, ?_, ?_⟩
  · intro s hs
    simp only [List.mem_cons, List.not_mem_nil, or_false] at hs
    rcases hs with rfl | rfl | rfl | rfl | rfl | rfl | rfl | rfl | rfl | rfl | rfl | rfl <;> rfl
  · simp [get_build_env, hmp, hep]
  · rfl

/-- The stage list the native MinGW recipe launches on the sample inputs. -/
def mingwDemoStages : List Stage :=
  launchedStages (build_mingw_toolchain id demoListing "/native-mingw" demoAmbient)

/-- The stage list the Windows-hosted MinGW recipe launches on the sample
inputs. -/
def winMingwDemoStages : List Stage :=
  launchedStages (build_win_mingw id demoListing "/win-mingw" "/native-mingw"
    demoAmbient)

/-- C5 counterexample: the Windows-hosted MinGW recipe does not execute the
same logical stage sequence as the native MinGW recipe: it launches 15
commands against the native recipe's 18, the native header-install and
symlink stages have no counterpart, and the Windows-hosted recipe has DLL
copy stages the native recipe lacks — the sequences differ in more than the
composed environment. -/
theorem win_mingw_sequence_differs_from_native :
    winMingwDemoStages.length = 15 ∧
    mingwDemoStages.length = 18 ∧
    (mingwDemoStages.map Stage.desc).contains "  Configuring mingw headers..." = true ∧
    (winMingwDemoStages.map Stage.desc).contains "  Configuring mingw headers..." = false ∧
    (mingwDemoStages.map Stage.desc).contains "   Creating symlink..." = true ∧
    (winMingwDemoStages.map Stage.desc).contains "   Creating symlink..." = false ∧
    (winMingwDemoStages.map Stage.desc).contains "  Copying libgcc to bin..." = true ∧
    (mingwDemoStages.map Stage.desc).contains "  Copying libgcc to bin..." = false := by
  refine ⟨rfl, rfl, rfl, rfl, rfl, rfl, rfl, rfl⟩

/-- C5 (amended): the Windows-hosted MinGW recipe does not run the native
MinGW stage sequence (15 stages against 18: the header, symlink and
winpthreads stages are absent, DLL-copy and gmp/mpfr/mpc install stages are
added, and the configure/make command lines differ); what does hold is the
environment part of the claim: every composed environment of the
Windows-hosted recipe prepends the native MinGW prefix's `bin` directly after
the recipe's own prefix `bin`, while the native recipe's environments carry
only the recipe's own prefix `bin` ahead of the ambient path. -/
theorem build_win_mingw_stage_counts_and_env (abspath : String → String)
    (listing : List String) (wp np : String) (ambient : PyEnv)
    (wStages nStages : List Stage)
    (hw : build_win_mingw abspath listing wp np ambient = .ok wStages)
    (hn : build_mingw_toolchain abspath listing np ambient = .ok nStages)
    (hnp : np ≠ "") :
    wStages.length = 15 ∧ nStages.length = 18 ∧
    (∀ s ∈ wStages, ∀ e, s.env = some e →
      e.path = (abspath wp ++ "/bin") :: (abspath np ++ "/bin") :: ambient.path) ∧
    (∀ s ∈ nStages, ∀ e, s.env = some e →
      e.path = (abspath np ++ "/bin") :: ambient.path) := by
  rcases hb : glob_sources listing "binutils" with _ | ⟨b, bs⟩
  · rw [build_win_mingw] at hw
    simp [pyIndex0, hb, Bind.bind, Except.bind] at hw
  rcases hc : glob_sources listing "gcc" with _ | ⟨c, cs⟩
  · rw [build_win_mingw] at hw
    simp [pyIndex0, hb, hc, Bind.bind, Except.bind] at hw
  rcases hm : glob_sources listing "mingw" with _ | ⟨m, ms⟩
  · rw [build_win_mingw] at hw
    simp [pyIndex0, hb, hc, hm, Bind.bind, Except.bind] at hw
  rw [build_win_mingw] at hw
  rw [build_mingw_toolchain] at hn
  simp only [pyIndex0, hb, hc, hm, Bind.bind, Except.bind, pure, Except.pure,
    Except.ok.injEq] at hw hn
  subst hw
  subst hn
  refine ⟨rfl, rfl, ?_, ?_⟩
  · intro s hs
    simp only [List.mem_cons, List.not_mem_nil, or_false] at hs
    rcases hs with rfl | rfl | rfl | rfl | rfl | rfl | rfl | rfl | rfl | rfl | rfl |
      rfl | rfl | rfl | rfl <;>
      intro e he <;> first
        | exact Option.noConfusion he
        | (injection he with he; subst he; simp [get_build_env, hnp])
  · intro s hs
    simp only [List.mem_cons, List.not_mem_nil, or_false] at hs
    rcases hs with rfl | rfl | rfl | rfl | rfl | rfl | rfl | rfl | rfl | rfl | rfl |
      rfl | rfl | rfl | rfl | rfl | rfl | rfl <;>
      intro e he <;> first
        | exact Option.noConfusion he
        | (injection he with he; subst he; simp [get_build_env])

/-- Witness for the amended C4 theorem at a concrete input. -/
theorem build_win_elf_env_and_gdb_hints_witness :
    (get_build_env id "/win-elf" "/native-mingw" "/native-elf" "x86_64-elf"
        demoAmbient).path =
      (id "/win-elf" ++ "/bin") :: (id "/native-mingw" ++ "/bin") ::
        (id "/native-elf" ++ "/bin") :: demoAmbient.path :=
  (build_win_elf_env_and_gdb_hints id demoListing "/win-elf" "/native-mingw"
    "/native-elf" "/win-mingw" demoAmbient winElfDemoStages (by rfl) (by decide)
    (by decide)).2.1

/-- Witness for the amended C5 theorem at a concrete input. -/
theorem build_win_mingw_stage_counts_and_env_witness :
    winMingwDemoStages.length = 15 ∧ mingwDemoStages.length = 18 :=
  ⟨(build_win_mingw_stage_counts_and_env id demoListing "/win-mingw" "/native-mingw"
      demoAmbient winMingwDemoStages mingwDemoStages (by rfl) (by rfl) (by decide)).1,
   (build_win_mingw_stage_counts_and_env id demoListing "/win-mingw" "/native-mingw"
      demoAmbient winMingwDemoStages mingwDemoStages (by rfl) (by rfl) (by decide)).2.1⟩

/-- C10: every build function resolves each required component's source tree
as the first `sources/` entry containing the component substring, and when a
required component has no match the function raises `IndexError` with no
stage launched: binutils is required by all four recipes, gdb by the two ELF
ones, gcc by all four, the MinGW runtime by the two MinGW ones; and on
success the first stage's command line names the first matching binutils
entry. -/
theorem source_trees_resolved_first_or_error (abspath : String → String)
    (listing : List String) (p1 p2 p3 p4 mp ep wmp : String) (amb : PyEnv) :
    (glob_sources listing "binutils" = [] →
      build_elf_toolchain abspath listing p1 amb = .error .indexError ∧
      build_mingw_toolchain abspath listing p2 amb = .error .indexError ∧
      build_win_mingw abspath listing p3 mp amb = .error .indexError ∧
      build_win_elf abspath listing p4 mp ep wmp amb = .error .indexError ∧
      launchedStages (build_elf_toolchain abspath listing p1 amb) = [] ∧
      launchedStages (build_mingw_toolchain abspath listing p2 amb) = [] ∧
      launchedStages (build_win_mingw abspath listing p3 mp amb) = [] ∧
      launchedStages (build_win_elf abspath listing p4 mp ep wmp amb) = []) ∧
    (glob_sources listing "gdb" = [] →
      build_elf_toolchain abspath listing p1 amb = .error .indexError ∧
      build_win_elf abspath listing p4 mp ep wmp amb = .error .indexError) ∧
    (glob_sources listing "gcc" = [] →
      build_elf_toolchain abspath listing p1 amb = .error .indexError ∧
      build_mingw_toolchain abspath listing p2 amb = .error .indexError ∧
      build_win_mingw abspath listing p3 mp amb = .error .indexError ∧
      build_win_elf abspath listing p4 mp ep wmp amb = .error .indexError) ∧
    (glob_sources listing "mingw" = [] →
      build_mingw_toolchain abspath listing p2 amb = .error .indexError ∧
      build_win_mingw abspath listing p3 mp amb = .error .indexError) ∧
    (∀ stages, build_elf_toolchain abspath listing p1 amb = .ok stages →
      (stages.head?).map Stage.cmd =
        some ("../../" ++ (glob_sources listing "binutils").headD "" ++
          "/configure --target=" ++ "x86_64-elf" ++ " --prefix=" ++ abspath p1 ++
          " --disable-nls --disable-werror --without-zstd")) := by
  refine ⟨?_, ?_, ?_, ?_, ?_⟩
  · intro hb
    have h1 : build_elf_toolchain abspath listing p1 amb = .error .indexError := by
      simp [build_elf_toolchain, pyIndex0, hb, Bind.bind, Except.bind]
    have h2 : build_mingw_toolchain abspath listing p2 amb = .error .indexError := by
      simp [build_mingw_toolchain, pyIndex0, hb, Bind.bind, Except.bind]
    have h3 : build_win_mingw abspath listing p3 mp amb = .error .indexError := by
      simp [build_win_mingw, pyIndex0, hb, Bind.bind, Except.bind]
    have h4 : build_win_elf abspath listing p4 mp ep wmp amb = .error .indexError := by
      simp [build_win_elf, pyIndex0, hb, Bind.bind, Except.bind]
    exact ⟨h1, h2, h3, h4, by rw [h1]; rfl, by rw [h2]; rfl, by rw [h3]; rfl,
      by rw [h4]; rfl⟩
  · intro hg
    constructor
    · rcases hb : glob_sources listing "binutils" with _ | ⟨b, bs⟩ <;>
        simp [build_elf_toolchain, pyIndex0, hb, hg, Bind.bind, Except.bind]
    · rcases hb : glob_sources listing "binutils" with _ | ⟨b, bs⟩ <;>
        simp [build_win_elf, pyIndex0, hb, hg, Bind.bind, Except.bind]
  · intro hc
    refine ⟨?_, ?_, ?_, ?_⟩
    · rcases hb : glob_sources listing "binutils" with _ | ⟨b, bs⟩ <;>
        rcases hg : glob_sources listing "gdb" with _ | ⟨g, gs⟩ <;>
        simp [build_elf_toolchain, pyIndex0, hb, hg, hc, Bind.bind, Except.bind]
    · rcases hb : glob_sources listing "binutils" with _ | ⟨b, bs⟩ <;>
        simp [build_mingw_toolchain, pyIndex0, hb, hc, Bind.bind, Except.bind]
    · rcases hb : glob_sources listing "binutils" with _ | ⟨b, bs⟩ <;>
        simp [build_win_mingw, pyIndex0, hb, hc, Bind.bind, Except.bind]
    · rcases hb : glob_sources listing "binutils" with _ | ⟨b, bs⟩ <;>
        rcases hg : glob_sources listing "gdb" with _ | ⟨g, gs⟩ <;>
        simp [build_win_elf, pyIndex0, hb, hg, hc, Bind.bind, Except.bind]
  · intro hm
    constructor
    · rcases hb : glob_sources listing "binutils" with _ | ⟨b, bs⟩ <;>
        rcases hc : glob_sources listing "gcc" with _ | ⟨c, cs⟩ <;>
        simp [build_mingw_toolchain, pyIndex0, hb, hc, hm, Bind.bind, Except.bind]
    · rcases hb : glob_sources listing "binutils" with _ | ⟨b, bs⟩ <;>
        rcases hc : glob_sources listing "gcc" with _ | ⟨c, cs⟩ <;>
        simp [build_win_mingw, pyIndex0, hb, hc, hm, Bind.bind, Except.bind]
  · intro stages hok
    rcases hb : glob_sources listing "binutils" with _ | ⟨b, bs⟩
    · rw [build_elf_toolchain] at hok
      simp [pyIndex0, hb, Bind.bind, Except.bind] at hok
    rcases hg : glob_sources listing "gdb" with _ | ⟨g, gs⟩
    · rw [build_elf_toolchain] at hok
      simp [pyIndex0, hb, hg, Bind.bind, Except.bind] at hok
    rcases hc : glob_sources listing "gcc" with _ | ⟨c, cs⟩
    · rw [build_elf_toolchain] at hok
      simp [pyIndex0, hb, hg, hc, Bind.bind, Except.bind] at hok
    rw [build_elf_toolchain] at hok
    simp only [pyIndex0, hb, hg, hc, Bind.bind, Except.bind, pure, Except.pure,
      Except.ok.injEq] at hok
    subst hok
    rfl

/-- Witness for the C10 theorem: with a listing holding no binutils entry the
native ELF recipe raises before launching any stage, and on the full sample
listing the first stage's command names the first binutils entry. -/
theorem source_trees_resolved_witness :
    (build_elf_toolchain id ["gcc-13.2.0"] "/p" demoAmbient = .error .indexError ∧
      launchedStages (build_elf_toolchain id ["gcc-13.2.0"] "/p" demoAmbient) = []) ∧
    (elfDemoStages.head?).map Stage.cmd =
      some ("../../" ++ (glob_sources demoListing "binutils").headD "" ++
        "/configure --target=" ++ "x86_64-elf" ++ " --prefix=" ++ id "/opt/elf" ++
        " --disable-nls --disable-werror --without-zstd") :=
  ⟨⟨((source_trees_resolved_first_or_error id ["gcc-13.2.0"] "/p" "/q" "/r" "/s"
        "/m" "/e" "/w" demoAmbient).1 (by decide)).1,
    ((source_trees_resolved_first_or_error id ["gcc-13.2.0"] "/p" "/q" "/r" "/s"
        "/m" "/e" "/w" demoAmbient).1 (by decide)).2.2.2.2.1⟩,
   (source_trees_resolved_first_or_error id demoListing "/opt/elf" "/q" "/r" "/s"
      "/m" "/e" "/w" demoAmbient).2.2.2.2 elfDemoStages (by rfl)⟩

/-- Splitting `recipeStages` over a concatenation of traces. -/
theorem recipeStages_append (l1 l2 : List MainAct) (n : String) :
    recipeStages (l1 ++ l2) n = recipeStages l1 n ++ recipeStages l2 n := by
  simp [recipeStages, List.filterMap_append]

/-- `recipeStages` over a branch of `main`. -/
theorem recipeStages_ite (c : Prop) [Decidable c] (l1 l2 : List MainAct) (n : String) :
    recipeStages (if c then l1 else l2) n =
      if c then recipeStages l1 n else recipeStages l2 n := by
  split <;> rfl

/-- `recipeStages` of an empty trace. -/
theorem recipeStages_nil (n : String) : recipeStages [] n = [] := rfl

/-- A download action contributes no recipe stages. -/
theorem recipeStages_download (a b c d n : String) (l : List MainAct) :
    recipeStages (MainAct.download a b c d :: l) n = recipeStages l n := rfl

/-- An extract action contributes no recipe stages. -/
theorem recipeStages_extract (n : String) (l : List MainAct) :
    recipeStages (MainAct.extract :: l) n = recipeStages l n := rfl

/-- A cleanup action contributes no recipe stages. -/
theorem recipeStages_doCleanup (n : String) (l : List MainAct) :
    recipeStages (MainAct.doCleanup :: l) n = recipeStages l n := rfl

/-- A pack call contributes no recipe stages. -/
theorem recipeStages_packCall (a b c d e n : String) (l : List MainAct) :
    recipeStages (MainAct.packCall a b c d e :: l) n = recipeStages l n := rfl

/-- A recipe action contributes its stage list exactly when the name
matches. -/
theorem recipeStages_recipe (m n : String) (s : List Stage) (l : List MainAct) :
    recipeStages (MainAct.recipe m s :: l) n =
      (if m = n then [s] else []) ++ recipeStages l n := by
  by_cases h : m = n <;> simp [recipeStages, List.filterMap_cons, h]

/-- The sample argument vector: only `--build_win_mingw` is set. -/
def c2args : Args :=
  { build_mingw := false, build_elf := false, build_win_mingw := true,
    build_win_elf := false, pack_mingw := false, pack_elf := false,
    pack_win_mingw := false, pack_win_elf := false, cleanup := false }

/-- A sample configuration. -/
def c2cfg : Config :=
  { binutils := "2.41", gdb := "14.1", gcc := "13.2.0", mingw := "11.0.1",
    mingw_pfx := "/native-mingw", elf_pfx := "/native-elf",
    mingw_win_pfx := "/win-mingw", elf_win_pfx := "/win-elf",
    archive_pfx := "/archives" }

/-- The existing directories in the sample run: the caches are present, no
install prefix is. -/
def c2dirs : List String := ["tarballs", "sources"]

/-- C2 counterexample: with only the `build_win_mingw` switch set and no
native install prefix existing (the native MinGW prefix `/native-mingw` is
not among the existing directories), `main` still starts the Windows-hosted
MinGW recipe, launching its full 15-stage sequence. -/
theorem main_starts_win_recipe_without_native_prefix :
    c2cfg.mingw_pfx ∉ c2dirs ∧
    (recipeStages (mainRun id c2args c2cfg c2dirs demoListing "x86_64" "linux"
        demoAmbient).1 "build_win_mingw").map List.length = [15] := by
  exact ⟨by decide, rfl⟩

/-- C2 (amended): `main` starts a Windows-hosted recipe from its command-line
switch alone and never checks that the prerequisite native install prefixes
exist: whenever cleanup is not requested, the native build switches are off
and the Windows-hosted MinGW stage-list computation succeeds, the recipe is
started with its full stage list, for every set of existing directories —
in particular also when the native prefix directories are absent. -/
theorem mainRun_starts_win_mingw_regardless (abspath : String → String)
    (args : Args) (cfg : Config) (dirs listing : List String)
    (arch osName : String) (amb : PyEnv) (stages : List Stage)
    (hcl : args.cleanup = false) (hbm : args.build_mingw = false)
    (hbe : args.build_elf = false) (hwm : args.build_win_mingw = true)
    (hok : build_win_mingw abspath listing cfg.mingw_win_pfx cfg.mingw_pfx amb =
      .ok stages) :
    recipeStages (mainRun abspath args cfg dirs listing arch osName amb).1
      "build_win_mingw" = [stages] := by
  cases hwe : args.build_win_elf
  · simp [mainRun, seqAct, runBuild, recipeStages_append, recipeStages_ite,
      recipeStages_nil, recipeStages_download, recipeStages_extract,
      recipeStages_packCall, recipeStages_recipe, recipeStages_doCleanup,
      hcl, hbm, hbe, hwm, hwe, hok]
  · cases hr : build_win_elf abspath listing cfg.elf_win_pfx cfg.mingw_pfx
        cfg.elf_pfx cfg.mingw_win_pfx amb <;>
      simp [mainRun, seqAct, runBuild, recipeStages_append, recipeStages_ite,
        recipeStages_nil, recipeStages_download, recipeStages_extract,
        recipeStages_packCall, recipeStages_recipe, recipeStages_doCleanup,
        hcl, hbm, hbe, hwm, hwe, hok, hr]

/-- Witness for the amended C2 theorem at a concrete input. -/
theorem mainRun_starts_win_mingw_regardless_witness :
    recipeStages (mainRun id c2args c2cfg c2dirs demoListing "x86_64" "linux"
        demoAmbient).1 "build_win_mingw" = [winMingwDemoStages] :=
  mainRun_starts_win_mingw_regardless id c2args c2cfg c2dirs demoListing "x86_64"
    "linux" demoAmbient winMingwDemoStages rfl rfl rfl rfl (by rfl)
